import Mathlib

/-!
Verification of `django-utm-tracker` core: the `LeadSource` model, its
factory `LeadSourceManager.create_from_utm_params` (src/utm_tracker/models.py),
and the schema migration `0004_leadsource_session_key`
(src/utm_tracker/migrations/0004_leadsource_session_key.py).

Embedding conventions:
- A Python `dict` of UTM parameters is an association list `List (String × String)`;
  `d[k]` is `dictGetItem` (raising `KeyError` on absence) and `d.get(k, dflt)` is
  `dictGetD`.
- Python exceptions relevant to this code are the constructors of `PyError`:
  `keyError` (generic lookup failure), `valueError` (what the factory raises for a
  missing required parameter), and `databaseError` (any persistence-layer failure,
  which in Django is never a `KeyError`).
- Time is abstract (`Nat`); `timezone.now` is modelled by passing in the values the
  two per-field calls return (`now1` for `timestamp`, `now2` for `created_at`),
  with interval hypotheses where a claim speaks about the call window.
- The persistence layer is external; its possible failure is an oracle
  `dbFail : Option String` (`some info` = the INSERT fails with a database error
  carrying `info`). A single-row INSERT is all-or-nothing, so on failure the
  database state is unchanged.
- `session.session_key` in Django is `Optional[str]` (it is `None` when no session
  key exists), so the Python-level value of the `session_key` field is modelled as
  `Option String`; the schema default `""` is `some ""`.
-/

/-- An association-list model of the `utm_params` dict (`UtmParamsDict`). -/
abbrev UtmParams := List (String × String)

/-- Python `d.get(k, dflt)`: the value at `k`, or `dflt` when `k` is absent. -/
def dictGetD (d : UtmParams) (k dflt : String) : String :=
  (d.lookup k).getD dflt

/-- The Python exceptions this code can surface. -/
inductive PyError where
  | keyError (key : String)
  | valueError (msg : String)
  | databaseError (info : String)
deriving DecidableEq, Repr

/-- Python `d[k]`: the value at `k`, or a `KeyError` naming `k` when absent. -/
def dictGetItem (d : UtmParams) (k : String) : Except PyError String :=
  match d.lookup k with
  | some v => Except.ok v
  | none => Except.error (PyError.keyError k)

/-- A Django session object: `session_key` is `None` when no session exists. -/
structure Session where
  session_key : Option String
deriving DecidableEq, Repr

/-- The persisted `LeadSource` record (models.py lines 34-117). `user` is the
foreign key to the externally-owned user; `id` is the assigned primary key. -/
structure LeadSource where
  id : Nat
  user : Nat
  medium : String
  source : String
  campaign : String
  term : String
  content : String
  timestamp : Nat
  session_key : Option String
  created_at : Nat
deriving DecidableEq, Repr

/-- The declared field default for `session_key` (models.py line 111). -/
def session_key_default : Option String := some ""

/-- Constructing a `LeadSource` instance: every field of the factory call is
passed positionally; `skArg = none` means the `session_key` keyword was omitted,
in which case the field default applies (Django callable/plain field defaults). -/
def leadSourceNew (id user : Nat) (medium source campaign term content : String)
    (timestamp : Nat) (skArg : Option (Option String)) (created_at : Nat) :
    LeadSource :=
  { id := id, user := user, medium := medium, source := source,
    campaign := campaign, term := term, content := content,
    timestamp := timestamp, session_key := skArg.getD session_key_default,
    created_at := created_at }

/-- The persisted table: rows in insertion order plus the next primary key. -/
structure Db where
  rows : List LeadSource
  next_id : Nat
deriving DecidableEq, Repr

/-- Django `LeadSource.objects.create(...)`: build the instance (defaults for
`timestamp` and `created_at` evaluate `timezone.now`, modelled by `now1`/`now2`)
and INSERT it. The external store either assigns the next id and appends the row,
or fails atomically with a database error (`dbFail` oracle), leaving `db` as is. -/
def leadSourceCreate (db : Db) (dbFail : Option String) (now1 now2 : Nat)
    (user : Nat) (sessionKey : Option String)
    (medium source campaign term content : String) :
    Except PyError LeadSource × Db :=
  match dbFail with
  | some info => (Except.error (PyError.databaseError info), db)
  | none =>
      (Except.ok (leadSourceNew db.next_id user medium source campaign term
          content now1 (some sessionKey) now2),
       { rows := db.rows ++ [leadSourceNew db.next_id user medium source campaign
            term content now1 (some sessionKey) now2],
         next_id := db.next_id + 1 })

/-- The message of the `ValueError` raised for a missing required parameter:
Python renders `str(KeyError(k))` as the key in single quotes, so the f-string
`f"Missing utm param: \x7bex\x7d"` yields this text. -/
def missingParamMsg (k : String) : String :=
  "Missing utm param: " ++ "\x27" ++ k ++ "\x27"

/-- The `except KeyError as ex: raise ValueError(...)` handler wrapped around the
whole `try` block (models.py lines 20-31). -/
def catchKeyError (x : Except PyError LeadSource × Db) :
    Except PyError LeadSource × Db :=
  match x with
  | (Except.error (PyError.keyError k), db) =>
      (Except.error (PyError.valueError (missingParamMsg k)), db)
  | other => other

/-- `LeadSourceManager.create_from_utm_params` (models.py lines 16-31).
Keyword arguments evaluate left to right: `utm_params["utm_medium"]` before
`utm_params["utm_source"]`, then the three `.get(k, "")` lookups which cannot
fail; any `KeyError` is re-raised as a `ValueError` naming the missing key. -/
def create_from_utm_params (db : Db) (dbFail : Option String) (now1 now2 : Nat)
    (user : Nat) (session : Session) (utm_params : UtmParams) :
    Except PyError LeadSource × Db :=
  catchKeyError
    (match dictGetItem utm_params "utm_medium" with
     | Except.error e => (Except.error e, db)
     | Except.ok medium =>
       match dictGetItem utm_params "utm_source" with
       | Except.error e => (Except.error e, db)
       | Except.ok source =>
           leadSourceCreate db dbFail now1 now2 user session.session_key
             medium source
             (dictGetD utm_params "utm_campaign" "")
             (dictGetD utm_params "utm_term" "")
             (dictGetD utm_params "utm_content" ""))

/-- A `LeadSource` row as persisted before migration 0004 (no `session_key`
column). -/
structure LeadSourceV3 where
  id : Nat
  user : Nat
  medium : String
  source : String
  campaign : String
  term : String
  content : String
  timestamp : Nat
  created_at : Nat
deriving DecidableEq, Repr

/-- Migration 0004 `AddField` on one row: the new `session_key` column is filled
with the declared default `''` (0004_leadsource_session_key.py lines 12-18). -/
def addSessionKeyField (row : LeadSourceV3) : LeadSource :=
  { id := row.id, user := row.user, medium := row.medium, source := row.source,
    campaign := row.campaign, term := row.term, content := row.content,
    timestamp := row.timestamp, session_key := some "",
    created_at := row.created_at }

/-- Migration 0004 applied to the whole pre-existing table. -/
def migration_0004_leadsource_session_key (rows : List LeadSourceV3) :
    List LeadSource :=
  rows.map addSessionKeyField

/-- The five UTM keys the factory recognizes. -/
def utm_attribution_keys : List String :=
  ["utm_medium", "utm_source", "utm_campaign", "utm_term", "utm_content"]

/-! ### Helper characterizations of `create_from_utm_params` -/

/-- Successful run, fully characterized: both required keys present and no
persistence failure. -/
theorem create_success_eq
    (db : Db) (now1 now2 user : Nat) (session : Session) (d : UtmParams)
    (m s : String)
    (hm : d.lookup "utm_medium" = some m) (hs : d.lookup "utm_source" = some s) :
    create_from_utm_params db none now1 now2 user session d =
      (Except.ok (leadSourceNew db.next_id user m s
          (dictGetD d "utm_campaign" "") (dictGetD d "utm_term" "")
          (dictGetD d "utm_content" "") now1 (some session.session_key) now2),
       { rows := db.rows ++ [leadSourceNew db.next_id user m s
            (dictGetD d "utm_campaign" "") (dictGetD d "utm_term" "")
            (dictGetD d "utm_content" "") now1 (some session.session_key) now2],
         next_id := db.next_id + 1 }) := by
  unfold create_from_utm_params dictGetItem
  rw [hm, hs]
  rfl

/-- Inversion: any run that returns a record did so with no persistence failure,
both required keys present, and the record and new table fully determined. -/
theorem create_ok_inversion
    (db : Db) (dbFail : Option String) (now1 now2 user : Nat) (session : Session)
    (d : UtmParams) (r : LeadSource) (db2 : Db)
    (h : create_from_utm_params db dbFail now1 now2 user session d =
      (Except.ok r, db2)) :
    dbFail = none ∧
    ∃ m s, d.lookup "utm_medium" = some m ∧ d.lookup "utm_source" = some s ∧
      r = leadSourceNew db.next_id user m s (dictGetD d "utm_campaign" "")
            (dictGetD d "utm_term" "") (dictGetD d "utm_content" "") now1
            (some session.session_key) now2 ∧
      db2 = { rows := db.rows ++ [r], next_id := db.next_id + 1 } := by
  unfold create_from_utm_params dictGetItem at h
  cases hm : d.lookup "utm_medium" with
  | none => rw [hm] at h; simp [catchKeyError] at h
  | some m =>
    rw [hm] at h
    cases hs : d.lookup "utm_source" with
    | none => rw [hs] at h; simp [catchKeyError] at h
    | some s =>
      rw [hs] at h
      cases dbFail with
      | some info => simp [leadSourceCreate, catchKeyError] at h
      | none =>
        simp only [leadSourceCreate, catchKeyError] at h
        obtain ⟨hr, hdb⟩ := Prod.mk.injEq .. ▸ h
        refine ⟨rfl, m, s, rfl, rfl, ?_, ?_⟩
        · exact (Except.ok.inj hr).symm
        · rw [hdb.symm, (Except.ok.inj hr)]

/-! ### Sample concrete inputs used by witnesses -/

/-- A minimal valid params dict: both required keys, no optional keys. -/
def sampleParams : UtmParams := [("utm_medium", "cpc"), ("utm_source", "google")]

/-- The record produced from `sampleParams` on the empty table. -/
def sampleRecord : LeadSource :=
  { id := 1, user := 7, medium := "cpc", source := "google", campaign := "",
    term := "", content := "", timestamp := 0, session_key := some "s",
    created_at := 0 }

/-- The table after inserting `sampleRecord` into the empty table. -/
def sampleDb2 : Db := { rows := [sampleRecord], next_id := 2 }

/-! ### Claim theorems -/

/-- C1: when `utm_params` lacks `utm_medium` or `utm_source`,
`create_from_utm_params` fails with a `ValueError` — distinct from the generic
`KeyError` lookup failure — whose message names the missing key (`utm_medium`
when it is absent, otherwise `utm_source`), instead of defaulting the field. -/
theorem create_missing_required_param_raises_named_valueError
    (db : Db) (dbFail : Option String) (now1 now2 user : Nat) (session : Session)
    (d : UtmParams)
    (h : d.lookup "utm_medium" = none ∨ d.lookup "utm_source" = none) :
    ∃ k, d.lookup k = none ∧
      (create_from_utm_params db dbFail now1 now2 user session d).fst
        = Except.error (PyError.valueError (missingParamMsg k)) ∧
      (d.lookup "utm_medium" = none → k = "utm_medium") ∧
      (d.lookup "utm_medium" ≠ none → k = "utm_source") := by
  cases hm : d.lookup "utm_medium" with
  | none =>
    refine ⟨"utm_medium", hm, ?_, fun _ => rfl, fun hc => absurd rfl hc⟩
    unfold create_from_utm_params dictGetItem
    rw [hm]
    rfl
  | some m =>
    have hs : d.lookup "utm_source" = none := by
      cases h with
      | inl h1 => rw [hm] at h1; exact absurd h1 (by simp)
      | inr h2 => exact h2
    refine ⟨"utm_source", hs, ?_, fun hc => absurd hc (by simp), fun _ => rfl⟩
    unfold create_from_utm_params dictGetItem
    rw [hm, hs]
    rfl

/-- Witness for C1 at `utm_params = [("utm_source", "google")]`: `utm_medium` is
absent and the call fails with `ValueError` naming `utm_medium`. -/
theorem create_missing_required_param_witness :
    (([("utm_source", "google")] : UtmParams).lookup "utm_medium" = none ∨
sampleParams.lookup "utm_source" = none) ∧
    ∃ k, ([("utm_source", "google")] : UtmParams).lookup k = none ∧
      (create_from_utm_params ⟨[], 1⟩ none 0 0 7 ⟨some "abc"⟩
          [("utm_source", "google")]).fst
        = Except.error (PyError.valueError (missingParamMsg k)) ∧
      (([("utm_source", "google")] : UtmParams).lookup "utm_medium" = none →
        k = "utm_medium") ∧
      (([("utm_source", "google")] : UtmParams).lookup "utm_medium" ≠ none →
        k = "utm_source") :=
  ⟨Or.inl (by decide),
   create_missing_required_param_raises_named_valueError ⟨[], 1⟩ none 0 0 7
     ⟨some "abc"⟩ [("utm_source", "google")] (Or.inl (by decide))⟩

/-- C2 counterexample: with `utm_params = [("utm_medium", ""), ("utm_source",
"google")]` the factory only checks key presence, so creation succeeds and the
persisted record has `medium = ""` — refuting the claim that no successful
creation can yield an empty `medium`. -/
theorem create_accepts_empty_medium_cex :
    (create_from_utm_params ⟨[], 1⟩ none 0 0 7 ⟨some "sess"⟩
        [("utm_medium", ""), ("utm_source", "google")]).fst
      = Except.ok
          { id := 1, user := 7, medium := "", source := "google",
            campaign := "", term := "", content := "", timestamp := 0,
            session_key := some "sess", created_at := 0 } := by
  rfl

/-- C2 amended: after every successful creation, `medium` and `source` are
exactly the values supplied at keys `utm_medium` and `utm_source` (which were
therefore present); the factory does not check the values themselves, so
`medium`/`source` are non-empty exactly when the supplied values were. -/
theorem create_medium_source_copied_from_params
    (db : Db) (dbFail : Option String) (now1 now2 user : Nat) (session : Session)
    (d : UtmParams) (r : LeadSource) (db2 : Db)
    (h : create_from_utm_params db dbFail now1 now2 user session d =
      (Except.ok r, db2)) :
    d.lookup "utm_medium" = some r.medium ∧
    d.lookup "utm_source" = some r.source := by
  obtain ⟨-, m, s, hm, hs, hr, -⟩ :=
    create_ok_inversion db dbFail now1 now2 user session d r db2 h
  subst hr
  exact ⟨hm, hs⟩

/-- Witness for the amended C2 at `sampleParams`. -/
theorem create_medium_source_copied_witness :
    create_from_utm_params ⟨[], 1⟩ none 0 0 7 ⟨some "s"⟩ sampleParams
        = (Except.ok sampleRecord, sampleDb2) ∧
    (sampleParams.lookup "utm_medium" = some sampleRecord.medium ∧
     sampleParams.lookup "utm_source" = some sampleRecord.source) :=
  ⟨rfl,
   create_medium_source_copied_from_params ⟨[], 1⟩ none 0 0 7 ⟨some "s"⟩
     sampleParams sampleRecord sampleDb2 rfl⟩

/-- C3: with both required keys present and none of the optional keys present,
creation (with no persistence failure) succeeds and the record's `campaign`,
`term` and `content` all default to the empty string. -/
theorem create_absent_optional_params_default_empty
    (db : Db) (now1 now2 user : Nat) (session : Session) (d : UtmParams)
    (m s : String)
    (hm : d.lookup "utm_medium" = some m) (hs : d.lookup "utm_source" = some s)
    (hc : d.lookup "utm_campaign" = none) (ht : d.lookup "utm_term" = none)
    (hn : d.lookup "utm_content" = none) :
    ∃ r db2,
      create_from_utm_params db none now1 now2 user session d =
        (Except.ok r, db2) ∧
      r.campaign = "" ∧ r.term = "" ∧ r.content = "" := by
  refine ⟨_, _, create_success_eq db now1 now2 user session d m s hm hs,
    ?_, ?_, ?_⟩
  · simp [leadSourceNew, dictGetD, hc]
  · simp [leadSourceNew, dictGetD, ht]
  · simp [leadSourceNew, dictGetD, hn]

/-- Witness for C3 at `sampleParams`. -/
theorem create_absent_optional_params_witness :
    (sampleParams.lookup "utm_medium" = some "cpc" ∧
     sampleParams.lookup "utm_source" = some "google" ∧
     sampleParams.lookup "utm_campaign" = none ∧
     sampleParams.lookup "utm_term" = none ∧
     sampleParams.lookup "utm_content" = none) ∧
    ∃ r db2,
      create_from_utm_params ⟨[], 1⟩ none 0 0 7 ⟨some "s"⟩ sampleParams =
        (Except.ok r, db2) ∧
      r.campaign = "" ∧ r.term = "" ∧ r.content = "" :=
  ⟨⟨by decide, by decide, by decide, by decide, by decide⟩,
   create_absent_optional_params_default_empty ⟨[], 1⟩ 0 0 7 ⟨some "s"⟩
     sampleParams "cpc" "google" (by decide) (by decide) (by decide) (by decide)
     (by decide)⟩

/-- C4: every successful call persists exactly one new row (the old rows plus
the returned record), assigns it the next identifier, copies/defaults the five
attribution fields from `utm_params`, and stamps `timestamp` and `created_at`
with times inside the call window; the returned record is the persisted one. -/
theorem create_success_persists_one_row
    (db : Db) (dbFail : Option String) (now1 now2 tStart tEnd user : Nat)
    (session : Session) (d : UtmParams) (r : LeadSource) (db2 : Db)
    (h : create_from_utm_params db dbFail now1 now2 user session d =
      (Except.ok r, db2))
    (h1 : tStart ≤ now1) (h2 : now1 ≤ tEnd)
    (h3 : tStart ≤ now2) (h4 : now2 ≤ tEnd) :
    db2.rows = db.rows ++ [r] ∧
    db2.next_id = db.next_id + 1 ∧
    r.id = db.next_id ∧
    r.user = user ∧
    d.lookup "utm_medium" = some r.medium ∧
    d.lookup "utm_source" = some r.source ∧
    r.campaign = dictGetD d "utm_campaign" "" ∧
    r.term = dictGetD d "utm_term" "" ∧
    r.content = dictGetD d "utm_content" "" ∧
    tStart ≤ r.timestamp ∧ r.timestamp ≤ tEnd ∧
    tStart ≤ r.created_at ∧ r.created_at ≤ tEnd := by
  obtain ⟨-, m, s, hm, hs, hr, hdb⟩ :=
    create_ok_inversion db dbFail now1 now2 user session d r db2 h
  subst hr
  subst hdb
  exact ⟨rfl, rfl, rfl, rfl, hm, hs, rfl, rfl, rfl, h1, h2, h3, h4⟩

/-- Witness for C4 at `sampleParams` with call window `[0, 5]`. -/
theorem create_success_persists_one_row_witness :
    (create_from_utm_params ⟨[], 1⟩ none 0 0 7 ⟨some "s"⟩ sampleParams =
        (Except.ok sampleRecord, sampleDb2) ∧ 0 ≤ 0 ∧ 0 ≤ 5) ∧
    (sampleDb2.rows = Db.rows ⟨[], 1⟩ ++ [sampleRecord] ∧
     sampleDb2.next_id = Db.next_id ⟨[], 1⟩ + 1 ∧
     sampleRecord.id = Db.next_id ⟨[], 1⟩ ∧
     sampleRecord.user = 7 ∧
     sampleParams.lookup "utm_medium" = some sampleRecord.medium ∧
     sampleParams.lookup "utm_source" = some sampleRecord.source ∧
     sampleRecord.campaign = dictGetD sampleParams "utm_campaign" "" ∧
     sampleRecord.term = dictGetD sampleParams "utm_term" "" ∧
     sampleRecord.content = dictGetD sampleParams "utm_content" "" ∧
     0 ≤ sampleRecord.timestamp ∧ sampleRecord.timestamp ≤ 5 ∧
     0 ≤ sampleRecord.created_at ∧ sampleRecord.created_at ≤ 5) :=
  ⟨⟨rfl, Nat.le_refl 0, Nat.zero_le 5⟩,
   create_success_persists_one_row ⟨[], 1⟩ none 0 0 0 5 7 ⟨some "s"⟩
     sampleParams sampleRecord sampleDb2 rfl (Nat.le_refl 0) (Nat.zero_le 5)
     (Nat.le_refl 0) (Nat.zero_le 5)⟩

/-- C5: on every successful call, the created record's `session_key` equals the
session object's identifier at call time (whatever it is, including `""`). -/
theorem create_copies_session_key
    (db : Db) (dbFail : Option String) (now1 now2 user : Nat) (session : Session)
    (d : UtmParams) (r : LeadSource) (db2 : Db)
    (h : create_from_utm_params db dbFail now1 now2 user session d =
      (Except.ok r, db2)) :
    r.session_key = session.session_key := by
  obtain ⟨-, m, s, -, -, hr, -⟩ :=
    create_ok_inversion db dbFail now1 now2 user session d r db2 h
  subst hr
  rfl

/-- Witness for C5 with a session whose identifier is the empty string. -/
theorem create_copies_session_key_witness :
    create_from_utm_params ⟨[], 1⟩ none 0 0 7 ⟨some ""⟩ sampleParams =
        (Except.ok
          { id := 1, user := 7, medium := "cpc", source := "google",
            campaign := "", term := "", content := "", timestamp := 0,
            session_key := some "", created_at := 0 },
         { rows :=
            [{ id := 1, user := 7, medium := "cpc", source := "google",
               campaign := "", term := "", content := "", timestamp := 0,
               session_key := some "", created_at := 0 }],
           next_id := 2 }) ∧
    LeadSource.session_key
        { id := 1, user := 7, medium := "cpc", source := "google",
          campaign := "", term := "", content := "", timestamp := 0,
          session_key := some "", created_at := 0 }
      = Session.session_key ⟨some ""⟩ :=
  ⟨rfl,
   create_copies_session_key ⟨[], 1⟩ none 0 0 7 ⟨some ""⟩ sampleParams
     { id := 1, user := 7, medium := "cpc", source := "google",
       campaign := "", term := "", content := "", timestamp := 0,
       session_key := some "", created_at := 0 }
     { rows :=
        [{ id := 1, user := 7, medium := "cpc", source := "google",
           campaign := "", term := "", content := "", timestamp := 0,
           session_key := some "", created_at := 0 }],
       next_id := 2 } rfl⟩

/-- C6: when both required keys are present and the underlying INSERT fails,
the database error propagates to the caller unchanged — same constructor, same
payload — and is not caught, masked, transformed or retried by the factory. -/
theorem create_propagates_persistence_error
    (db : Db) (info : String) (now1 now2 user : Nat) (session : Session)
    (d : UtmParams) (m s : String)
    (hm : d.lookup "utm_medium" = some m) (hs : d.lookup "utm_source" = some s) :
    create_from_utm_params db (some info) now1 now2 user session d
      = (Except.error (PyError.databaseError info), db) := by
  unfold create_from_utm_params dictGetItem
  rw [hm, hs]
  rfl

/-- Witness for C6: a storage failure `"storage unavailable"` on a valid call. -/
theorem create_propagates_persistence_error_witness :
    (sampleParams.lookup "utm_medium" = some "cpc" ∧
     sampleParams.lookup "utm_source" = some "google") ∧
    create_from_utm_params ⟨[], 1⟩ (some "storage unavailable") 0 0 7 ⟨some "s"⟩
        sampleParams
      = (Except.error (PyError.databaseError "storage unavailable"), ⟨[], 1⟩) :=
  ⟨⟨rfl, rfl⟩,
   create_propagates_persistence_error ⟨[], 1⟩ "storage unavailable" 0 0 7
     ⟨some "s"⟩ sampleParams "cpc" "google" rfl rfl⟩

/-- C7: every failing call — missing required key or persistence failure —
leaves the persisted table exactly as it was: no partial record exists. -/
theorem create_failure_leaves_db_unchanged
    (db : Db) (dbFail : Option String) (now1 now2 user : Nat) (session : Session)
    (d : UtmParams) (e : PyError) (db2 : Db)
    (h : create_from_utm_params db dbFail now1 now2 user session d =
      (Except.error e, db2)) :
    db2 = db := by
  unfold create_from_utm_params dictGetItem at h
  cases hm : d.lookup "utm_medium" with
  | none =>
    rw [hm] at h
    simp [catchKeyError] at h
    exact h.2.symm
  | some m =>
    rw [hm] at h
    cases hs : d.lookup "utm_source" with
    | none =>
      rw [hs] at h
      simp [catchKeyError] at h
      exact h.2.symm
    | some s =>
      rw [hs] at h
      cases dbFail with
      | some info =>
        simp [leadSourceCreate, catchKeyError] at h
        exact h.2.symm
      | none => simp [leadSourceCreate, catchKeyError] at h

/-- Witness for C7: the missing-`utm_medium` failure leaves the table as is. -/
theorem create_failure_leaves_db_unchanged_witness :
    create_from_utm_params ⟨[], 1⟩ none 0 0 7 ⟨some "s"⟩
        [("utm_source", "google")]
      = (Except.error (PyError.valueError (missingParamMsg "utm_medium")),
         ⟨[], 1⟩) ∧
    (⟨[], 1⟩ : Db) = ⟨[], 1⟩ :=
  ⟨rfl,
   create_failure_leaves_db_unchanged ⟨[], 1⟩ none 0 0 7 ⟨some "s"⟩
     [("utm_source", "google")]
     (PyError.valueError (missingParamMsg "utm_medium")) ⟨[], 1⟩ rfl⟩

/-- C8: migration 0004 adds the `session_key` column with default `""`: every
row persisted before the revision reads back, after the migration, with
`session_key = ""` and every other field unchanged. -/
theorem migration_backfills_empty_session_key
    (rows : List LeadSourceV3) (row : LeadSourceV3) (h : row ∈ rows) :
    addSessionKeyField row ∈ migration_0004_leadsource_session_key rows ∧
    (addSessionKeyField row).session_key = some "" ∧
    (addSessionKeyField row).id = row.id ∧
    (addSessionKeyField row).user = row.user ∧
    (addSessionKeyField row).medium = row.medium ∧
    (addSessionKeyField row).source = row.source ∧
    (addSessionKeyField row).campaign = row.campaign ∧
    (addSessionKeyField row).term = row.term ∧
    (addSessionKeyField row).content = row.content ∧
    (addSessionKeyField row).timestamp = row.timestamp ∧
    (addSessionKeyField row).created_at = row.created_at := by
  refine ⟨?_, rfl, rfl, rfl, rfl, rfl, rfl, rfl, rfl, rfl, rfl⟩
  unfold migration_0004_leadsource_session_key
  exact List.mem_map_of_mem addSessionKeyField h

/-- A pre-migration sample row. -/
def sampleRowV3 : LeadSourceV3 :=
  { id := 3, user := 9, medium := "email", source := "mailchimp",
    campaign := "newsletter", term := "tk", content := "cta", timestamp := 11,
    created_at := 12 }

/-- Witness for C8 on a one-row pre-migration table. -/
theorem migration_backfills_empty_session_key_witness :
    sampleRowV3 ∈ [sampleRowV3] ∧
    (addSessionKeyField sampleRowV3 ∈
        migration_0004_leadsource_session_key [sampleRowV3] ∧
     (addSessionKeyField sampleRowV3).session_key = some "" ∧
     (addSessionKeyField sampleRowV3).id = sampleRowV3.id ∧
     (addSessionKeyField sampleRowV3).user = sampleRowV3.user ∧
     (addSessionKeyField sampleRowV3).medium = sampleRowV3.medium ∧
     (addSessionKeyField sampleRowV3).source = sampleRowV3.source ∧
     (addSessionKeyField sampleRowV3).campaign = sampleRowV3.campaign ∧
     (addSessionKeyField sampleRowV3).term = sampleRowV3.term ∧
     (addSessionKeyField sampleRowV3).content = sampleRowV3.content ∧
     (addSessionKeyField sampleRowV3).timestamp = sampleRowV3.timestamp ∧
     (addSessionKeyField sampleRowV3).created_at = sampleRowV3.created_at) :=
  ⟨by decide,
   migration_backfills_empty_session_key [sampleRowV3] sampleRowV3 (by decide)⟩

/-- C9: when the session's identifier is `None`, a successful creation stores
that null value in `session_key`, not the field's declared default `""`; the
default applies only when the `session_key` argument is omitted at
construction, and the factory always passes it explicitly. -/
theorem create_passes_null_session_key_through
    (db : Db) (dbFail : Option String) (now1 now2 user : Nat) (session : Session)
    (d : UtmParams) (r : LeadSource) (db2 : Db)
    (hnull : session.session_key = none)
    (h : create_from_utm_params db dbFail now1 now2 user session d =
      (Except.ok r, db2)) :
    (r.session_key = none ∧ r.session_key ≠ session_key_default) ∧
    (∀ idv uv mv sv cv tv nv ts ca,
      (leadSourceNew idv uv mv sv cv tv nv ts none ca).session_key
        = session_key_default) := by
  obtain ⟨-, m, s, -, -, hr, -⟩ :=
    create_ok_inversion db dbFail now1 now2 user session d r db2 h
  subst hr
  refine ⟨?_, fun idv uv mv sv cv tv nv ts ca => rfl⟩
  simp [leadSourceNew, session_key_default, hnull]

/-- Witness for C9: a sessionless call stores `none`, not `some ""`. -/
theorem create_passes_null_session_key_witness :
    (Session.session_key ⟨none⟩ = none ∧
     create_from_utm_params ⟨[], 1⟩ none 0 0 7 ⟨none⟩ sampleParams =
       (Except.ok
          { id := 1, user := 7, medium := "cpc", source := "google",
            campaign := "", term := "", content := "", timestamp := 0,
            session_key := none, created_at := 0 },
        { rows :=
            [{ id := 1, user := 7, medium := "cpc", source := "google",
               campaign := "", term := "", content := "", timestamp := 0,
               session_key := none, created_at := 0 }],
          next_id := 2 })) ∧
    ((LeadSource.session_key
        { id := 1, user := 7, medium := "cpc", source := "google",
          campaign := "", term := "", content := "", timestamp := 0,
          session_key := none, created_at := 0 } = none ∧
      LeadSource.session_key
        { id := 1, user := 7, medium := "cpc", source := "google",
          campaign := "", term := "", content := "", timestamp := 0,
          session_key := none, created_at := 0 } ≠ session_key_default) ∧
     (∀ idv uv mv sv cv tv nv ts ca,
       (leadSourceNew idv uv mv sv cv tv nv ts none ca).session_key
         = session_key_default)) :=
  ⟨⟨rfl, rfl⟩,
   create_passes_null_session_key_through ⟨[], 1⟩ none 0 0 7 ⟨none⟩ sampleParams
     { id := 1, user := 7, medium := "cpc", source := "google",
       campaign := "", term := "", content := "", timestamp := 0,
       session_key := none, created_at := 0 }
     { rows :=
        [{ id := 1, user := 7, medium := "cpc", source := "google",
           campaign := "", term := "", content := "", timestamp := 0,
           session_key := none, created_at := 0 }],
       next_id := 2 } rfl rfl⟩

/-- C10: unrecognized keys do not interfere — two successful calls with the
same user and session whose params agree on the five recognized UTM keys
produce records with identical attribution fields and `session_key`, whatever
other keys the two dicts contain. -/
theorem create_ignores_unrecognized_keys
    (dbx dby dbA dbB : Db) (f1 f2 : Option String)
    (now1 now2 now3 now4 user : Nat) (session : Session) (d1 d2 : UtmParams)
    (r1 r2 : LeadSource)
    (hagree : ∀ k ∈ utm_attribution_keys, d1.lookup k = d2.lookup k)
    (h1 : create_from_utm_params dbx f1 now1 now2 user session d1 =
      (Except.ok r1, dbA))
    (h2 : create_from_utm_params dby f2 now3 now4 user session d2 =
      (Except.ok r2, dbB)) :
    r1.medium = r2.medium ∧ r1.source = r2.source ∧ r1.campaign = r2.campaign ∧
    r1.term = r2.term ∧ r1.content = r2.content ∧
    r1.session_key = r2.session_key := by
  obtain ⟨-, m1, s1, hm1, hs1, hr1, -⟩ :=
    create_ok_inversion dbx f1 now1 now2 user session d1 r1 dbA h1
  obtain ⟨-, m2, s2, hm2, hs2, hr2, -⟩ :=
    create_ok_inversion dby f2 now3 now4 user session d2 r2 dbB h2
  subst hr1
  subst hr2
  refine ⟨?_, ?_, ?_, ?_, ?_, rfl⟩
  · show m1 = m2
    have e := hagree "utm_medium" (by decide)
    rw [hm1, hm2] at e
    exact Option.some.inj e
  · show s1 = s2
    have e := hagree "utm_source" (by decide)
    rw [hs1, hs2] at e
    exact Option.some.inj e
  · show dictGetD d1 "utm_campaign" "" = dictGetD d2 "utm_campaign" ""
    unfold dictGetD
    rw [hagree "utm_campaign" (by decide)]
  · show dictGetD d1 "utm_term" "" = dictGetD d2 "utm_term" ""
    unfold dictGetD
    rw [hagree "utm_term" (by decide)]
  · show dictGetD d1 "utm_content" "" = dictGetD d2 "utm_content" ""
    unfold dictGetD
    rw [hagree "utm_content" (by decide)]

/-- A params dict that adds an unrecognized key (`gclid`) to `sampleParams`. -/
def sampleParamsExtra : UtmParams :=
  [("utm_medium", "cpc"), ("utm_source", "google"), ("gclid", "xyz123")]

/-- Witness for C10: adding the unrecognized key `gclid` changes nothing. -/
theorem create_ignores_unrecognized_keys_witness :
    ((∀ k ∈ utm_attribution_keys,
        sampleParamsExtra.lookup k = sampleParams.lookup k) ∧
     create_from_utm_params ⟨[], 1⟩ none 0 0 7 ⟨some "s"⟩ sampleParamsExtra =
       (Except.ok sampleRecord, sampleDb2) ∧
     create_from_utm_params ⟨[], 1⟩ none 0 0 7 ⟨some "s"⟩ sampleParams =
       (Except.ok sampleRecord, sampleDb2)) ∧
    (sampleRecord.medium = sampleRecord.medium ∧
     sampleRecord.source = sampleRecord.source ∧
     sampleRecord.campaign = sampleRecord.campaign ∧
     sampleRecord.term = sampleRecord.term ∧
     sampleRecord.content = sampleRecord.content ∧
     sampleRecord.session_key = sampleRecord.session_key) :=
  ⟨⟨by decide, rfl, rfl⟩,
   create_ignores_unrecognized_keys ⟨[], 1⟩ ⟨[], 1⟩ sampleDb2 sampleDb2 none none
     0 0 0 0 7 ⟨some "s"⟩ sampleParamsExtra sampleParams sampleRecord
     sampleRecord (by decide) rfl rfl⟩
